import Mathlib

/-!
Verification of the proksi control plane (Rust): the routing table,
certificate store and ACME order bookkeeping, shallowly embedded in Lean.

Embedded sources:
* `src/main.rs` — `Storage` (orders / certificates HashMaps) and the
  bootstrap loop of `main()`.
* `src/services/discovery/mod.rs` — `RoutingService.add_routes_from_config`,
  `watch_for_route_changes` and `add_route_to_router`.
* `src/stores/certificates.rs` — `Certificate`, `CertificateStore`.

`HashMap` / `DashMap` (library dependencies) are embedded as association
lists with replace-on-collision insert and first-match lookup; that is the
observable map semantics of both containers for a single key.
-/

namespace Proksi

/-- Association-list map core: first-match lookup, mirroring the lookup
semantics of `std::collections::HashMap::get` and `dashmap::DashMap::get`. -/
def mapGet {V : Type} (m : List (String × V)) (k : String) : Option V :=
  match m with
  | [] => none
  | (k', v) :: rest => if k' = k then some v else mapGet rest k

/-- Replace-in-place insert, mirroring `HashMap::insert` / `DashMap::insert`:
the previous value for the key, if any, is replaced; otherwise the pair is
appended.  The container holds at most one entry per key. -/
def mapInsert {V : Type} (m : List (String × V)) (k : String) (v : V) :
    List (String × V) :=
  match m with
  | [] => [(k, v)]
  | (k', v') :: rest =>
      if k' = k then (k, v) :: rest else (k', v') :: mapInsert rest k v

/-- Removal of every entry for a key, mirroring `HashMap::remove`. -/
def mapErase {V : Type} (m : List (String × V)) (k : String) :
    List (String × V) :=
  m.filter (fun p => p.1 ≠ k)

/-- Number of entries stored under a key. -/
def countKey {V : Type} (m : List (String × V)) (k : String) : Nat :=
  (m.filter (fun p => p.1 = k)).length

@[simp]
theorem mapGet_nil {V : Type} (k : String) : mapGet ([] : List (String × V)) k = none := rfl

@[simp]
theorem mapGet_insert_self {V : Type} (m : List (String × V)) (k : String) (v : V) :
    mapGet (mapInsert m k v) k = some v := by
  induction m with
  | nil => simp [mapInsert, mapGet]
  | cons p rest ih =>
      obtain ⟨k', v'⟩ := p
      by_cases h : k' = k
      · simp [mapInsert, h, mapGet]
      · simp [mapInsert, h, mapGet, ih]

@[simp]
theorem mapGet_insert_ne {V : Type} (m : List (String × V)) (k k' : String) (v : V)
    (h : k ≠ k') : mapGet (mapInsert m k v) k' = mapGet m k' := by
  induction m with
  | nil => simp [mapInsert, mapGet, h]
  | cons p rest ih =>
      obtain ⟨q, w⟩ := p
      by_cases hq : q = k
      · subst hq
        simp [mapInsert, mapGet, h]
      · simp [mapInsert, hq, mapGet, ih]

theorem mapGet_insert_isSome {V : Type} (m : List (String × V)) (k h : String) (v : V)
    (e : V) (hget : mapGet m h = some e) :
    ∃ e', mapGet (mapInsert m k v) h = some e' := by
  by_cases hk : k = h
  · subst hk; exact ⟨v, mapGet_insert_self m k v⟩
  · exact ⟨e, by rw [mapGet_insert_ne m k h v hk]; exact hget⟩

@[simp]
theorem mapGet_erase_self {V : Type} (m : List (String × V)) (k : String) :
    mapGet (mapErase m k) k = none := by
  induction m with
  | nil => rfl
  | cons p rest ih =>
      obtain ⟨q, w⟩ := p
      by_cases hq : q = k
      · simpa [mapErase, hq] using ih
      · simpa [mapErase, hq, mapGet] using ih

theorem countKey_cons {V : Type} (k' q : String) (v' : V) (rest : List (String × V)) :
    countKey ((k', v') :: rest) q = (if k' = q then 1 else 0) + countKey rest q := by
  by_cases h : k' = q
  · simp [countKey, List.filter_cons, h]
    omega
  · simp [countKey, List.filter_cons, h]

theorem countKey_insert_ne {V : Type} (m : List (String × V)) (k q : String) (v : V)
    (h : k ≠ q) : countKey (mapInsert m k v) q = countKey m q := by
  induction m with
  | nil => simp [mapInsert, countKey, List.filter_cons, h]
  | cons p rest ih =>
      obtain ⟨k', v'⟩ := p
      by_cases hk : k' = k
      · subst hk
        rw [mapInsert, if_pos rfl, countKey_cons, countKey_cons]
      · rw [mapInsert, if_neg hk, countKey_cons, countKey_cons, ih]

theorem countKey_insert_self {V : Type} (m : List (String × V)) (k : String) (v : V) :
    countKey (mapInsert m k v) k = max (countKey m k) 1 := by
  induction m with
  | nil => simp [mapInsert, countKey, List.filter_cons]
  | cons p rest ih =>
      obtain ⟨k', v'⟩ := p
      by_cases hk : k' = k
      · subst hk
        rw [mapInsert, if_pos rfl, countKey_cons, countKey_cons]
        simp
      · rw [mapInsert, if_neg hk, countKey_cons, countKey_cons, ih]
        simp [hk]

theorem countKey_insert {V : Type} (m : List (String × V)) (k q : String) (v : V) :
    countKey (mapInsert m k v) q ≤ max (countKey m q) 1 := by
  by_cases h : k = q
  · subst h
    rw [countKey_insert_self]
  · rw [countKey_insert_ne m k q v h]
    omega

theorem countKey_erase_le {V : Type} (m : List (String × V)) (k q : String) :
    countKey (mapErase m k) q ≤ countKey m q := by
  induction m with
  | nil => simp [mapErase, countKey]
  | cons p rest ih =>
      obtain ⟨k', v'⟩ := p
      by_cases hk : k' = k
      · have : mapErase ((k', v') :: rest) k = mapErase rest k := by
          simp [mapErase, List.filter_cons, hk]
        rw [this, countKey_cons]
        by_cases hq : k' = q <;> simp [hq] <;> omega
      · have : mapErase ((k', v') :: rest) k = (k', v') :: mapErase rest k := by
          simp [mapErase, List.filter_cons, hk]
        rw [this, countKey_cons, countKey_cons]
        by_cases hq : k' = q <;> simp [hq] <;> omega

/-- Opaque challenge key-authorization value from the `instant_acme` crate
(`instant_acme::KeyAuthorization`); only carried and compared, never
inspected, so it is embedded as a wrapped string. -/
structure KeyAuthorization where
  value : String
deriving DecidableEq, Repr

/-- `Storage` from `src/main.rs`: the Order Tracker (`orders`) and the
per-host certificate map (`certificates`), both `HashMap`s embedded as
association lists. -/
structure Storage where
  orders : List (String × (String × String × KeyAuthorization))
  certificates : List (String × String)
deriving DecidableEq, Repr

/-- `Storage::new` from `src/main.rs`. -/
def Storage.new : Storage :=
  { orders := [], certificates := [] }

/-- `Default for Storage` from `src/main.rs`: delegates to `Storage::new`. -/
def Storage.default : Storage :=
  Storage.new

/-- `Storage::add_order` from `src/main.rs`:
`self.orders.insert(identifier, (token, url, key_auth))`. -/
def Storage.add_order (s : Storage) (identifier token url : String)
    (key_auth : KeyAuthorization) : Storage :=
  { s with orders := mapInsert s.orders identifier (token, url, key_auth) }

/-- `Storage::add_certificate` from `src/main.rs`:
`self.certificates.insert(host, certificate)`. -/
def Storage.add_certificate (s : Storage) (host certificate : String) : Storage :=
  { s with certificates := mapInsert s.certificates host certificate }

/-- `Storage::get_certificate` from `src/main.rs`: `self.certificates.get(host)`. -/
def Storage.get_certificate (s : Storage) (host : String) : Option String :=
  mapGet s.certificates host

/-- `Storage::get_orders` from `src/main.rs`: returns the whole orders map. -/
def Storage.get_orders (s : Storage) :
    List (String × (String × String × KeyAuthorization)) :=
  s.orders

/-- `Storage::get_order` from `src/main.rs`: `self.orders.get(order)`. -/
def Storage.get_order (s : Storage) (order : String) :
    Option (String × String × KeyAuthorization) :=
  mapGet s.orders order

/-- `Certificate` from `src/stores/certificates.rs`: a private key and a
certificate chain, both byte vectors (`Vec<u8>` embedded as `List Nat`). -/
structure Certificate where
  key : List Nat
  certificate : List Nat
deriving DecidableEq, Repr

/-- `CertificateStore` from `src/stores/certificates.rs`:
`Arc<DashMap<String, Certificate>>`, embedded by its map contents. -/
def CertificateStore : Type :=
  List (String × Certificate)

/-- `DashMap::insert` on the certificate store. -/
def CertificateStore.insert (m : CertificateStore) (host : String)
    (c : Certificate) : CertificateStore :=
  mapInsert m host c

/-- `DashMap::get` on the certificate store. -/
def CertificateStore.get (m : CertificateStore) (host : String) : Option Certificate :=
  mapGet m host

/-- The empty certificate store (`DashMap::new`). -/
def CertificateStore.empty : CertificateStore :=
  []

/-- A resolved socket address (model of `std::net::SocketAddr`). -/
structure SocketAddr where
  host : String
  port : Nat
deriving DecidableEq, Repr

/-- Split a character list at every colon (the separator of `"ip:port"`
address strings). -/
def splitOnColon : List Char → List (List Char)
  | [] => [[]]
  | c :: rest =>
    match splitOnColon rest with
    | [] => [[]]
    | grp :: grps => if c = ':' then [] :: grp :: grps else (c :: grp) :: grps

/-- Parse a decimal port number: non-empty, digits only. -/
def parsePort (cs : List Char) : Option Nat :=
  if cs ≠ [] ∧ cs.all Char.isDigit then
    some (cs.foldl (fun n c => n * 10 + (c.toNat - 48)) 0)
  else none

/-- Model of `ToSocketAddrs` resolution for an `"ip:port"` string as used by
`pingora_load_balancing::LoadBalancer::try_from_iter`: the string must split
into exactly a non-empty host part and a numeric port below 65536; anything
else (no colon, several colons, empty host, bad port) fails to resolve.
DNS lookup is outside the embedding, so a syntactically well-formed name is
treated as resolvable. -/
def parseSocketAddr (s : String) : Option SocketAddr :=
  match splitOnColon s.toList with
  | [h, p] =>
      if h = [] then none
      else match parsePort p with
        | some n => if n < 65536 then some { host := String.mk h, port := n } else none
        | none => none
  | _ => none

/-- Model of `LoadBalancer::try_from_iter`: resolves every address string,
failing (the Rust `Result::Err` case) if any of them fails to resolve.  The
resulting backend pool is embedded as the list of resolved addresses; the
round-robin selector and TCP health check carried by the real
`LoadBalancer` do not affect the routing-table state. -/
def tryFromIter (addrs : List String) : Option (List SocketAddr) :=
  addrs.mapM parseSocketAddr

/-- Path matcher carried in the configuration (`config::RouteMatcher`'s
`path` field component, used by `add_route_to_router` via
`path_matcher.patterns`). -/
structure PathMatcher where
  patterns : List String
deriving DecidableEq, Repr

/-- `config::RouteMatcher` as consumed by `add_route_to_router` in
`src/services/discovery/mod.rs`: an optional path matcher. -/
structure RouteMatcher where
  path : Option PathMatcher
deriving DecidableEq, Repr

/-- One configured upstream `{ip, port}` from the static configuration
(`route.upstreams` in `src/main.rs` and `src/services/discovery/mod.rs`). -/
structure RouteUpstream where
  ip : String
  port : Nat
deriving DecidableEq, Repr

/-- One statically configured route `{host, upstreams, match_with}`. -/
structure ConfigRoute where
  host : String
  upstreams : List RouteUpstream
  match_with : Option RouteMatcher
deriving DecidableEq, Repr

/-- The `format!("{}:{}", upstr.ip, upstr.port)` mapping applied to a
route's upstreams in both `main()` and
`RoutingService::add_routes_from_config`. -/
def routeBackends (route : ConfigRoute) : List String :=
  route.upstreams.map (fun u => u.ip ++ ":" ++ toString u.port)

/-- Modelled from the spec: `src/stores/routes.rs` (`RouteStoreContainer`)
is not under src/.  Per §3, a Route Entry bundles the upstream pool handle
with an optional ordered list of path-match patterns; `new` (as called in
`add_route_to_router`) wraps a pool with an empty pattern list, and
`path_matcher.with_pattern` installs a pattern list. -/
structure RouteStoreContainer where
  upstreams : List SocketAddr
  path_matcher : List String
deriving DecidableEq, Repr

/-- `RouteStoreContainer::new(Arc::new(upstreams))`: a container with the
given pool and no path patterns. -/
def RouteStoreContainer.new (pool : List SocketAddr) : RouteStoreContainer :=
  { upstreams := pool, path_matcher := [] }

/-- `path_matcher.with_pattern(pattern)` on a container. -/
def RouteStoreContainer.with_pattern (c : RouteStoreContainer)
    (pattern : List String) : RouteStoreContainer :=
  { c with path_matcher := pattern }

/-- Modelled from the spec: `src/stores/routes.rs` (`RouteStore`) is not
under src/.  Per §4.1 it is a concurrent mapping from host name to a shared
Route Entry with `insert` (install or overwrite, always succeeds), `get`
and `list_hosts`; embedded as an association list with replace-on-collision
insert. -/
def RouteStore : Type :=
  List (String × RouteStoreContainer)

/-- `RouteStore::new`: the empty route table. -/
def RouteStore.new : RouteStore :=
  []

/-- Route Store `insert` (spec §4.1): installs or overwrites the entry for
the host; used by `add_route_to_router` as `ROUTE_STORE.insert(...)` and by
`main()` as `router_store.add_route(...)`. -/
def RouteStore.insert (store : RouteStore) (host : String)
    (entry : RouteStoreContainer) : RouteStore :=
  mapInsert store host entry

/-- Route Store `get` (spec §4.1): the current entry for a host, if any. -/
def RouteStore.get (store : RouteStore) (host : String) : Option RouteStoreContainer :=
  mapGet store host

/-- Route Store `list_hosts` / `get_route_keys` (spec §4.1): the currently
known host names. -/
def RouteStore.get_route_keys (store : RouteStore) : List String :=
  store.map (fun p => p.1)

/-- The container-construction part of `add_route_to_router` from
`src/services/discovery/mod.rs`: a fresh `RouteStoreContainer` for the
pool, with the path pattern attached only when `match_with` holds a path
matcher whose pattern list is non-empty (the source's
`Some(path_matcher) if path_matcher.patterns.len() > 0` arm; the
`Some(_)` and `None` arms leave the container unchanged). -/
def build_container (pool : List SocketAddr) (match_with : Option RouteMatcher) :
    RouteStoreContainer :=
  let route_store_container := RouteStoreContainer.new pool
  match match_with with
  | some mw =>
      match mw.path with
      | some path_matcher =>
          if path_matcher.patterns.length > 0 then
            route_store_container.with_pattern path_matcher.patterns
          else
            route_store_container
      | none => route_store_container
  | none => route_store_container

/-- `add_route_to_router` from `src/services/discovery/mod.rs`, acting on
an explicit route-store state.  A `LoadBalancer::try_from_iter` failure
logs a diagnostic and returns without touching the store; otherwise the
container built by `build_container` is installed under the host via
`ROUTE_STORE.insert(host.to_string(), Arc::new(route_store_container))`. -/
def add_route_to_router (store : RouteStore) (host : String)
    (upstream_input : List String) (match_with : Option RouteMatcher) : RouteStore :=
  match tryFromIter upstream_input with
  | none => store
  | some pool => RouteStore.insert store host (build_container pool match_with)

/-- `RoutingService::add_routes_from_config` from
`src/services/discovery/mod.rs`: for each configured route, format the
backends and call `add_route_to_router`. -/
def add_routes_from_config (store : RouteStore) (routes : List ConfigRoute) :
    RouteStore :=
  routes.foldl
    (fun st route => add_route_to_router st route.host (routeBackends route) route.match_with)
    store

/-- One received discovery event as handled by
`RoutingService::watch_for_route_changes` in
`src/services/discovery/mod.rs`: `MsgProxy::NewRoute(route)` carries a host
and upstream address strings, and is applied with no matcher. -/
structure NewRoute where
  host : String
  upstreams : List String
deriving DecidableEq, Repr

/-- The effect of one loop iteration of `watch_for_route_changes` on the
route store: `add_route_to_router(&route.host, &route.upstreams, None)`. -/
def watch_step (store : RouteStore) (route : NewRoute) : RouteStore :=
  add_route_to_router store route.host route.upstreams none

/-- The bootstrap loop of `main()` in `src/main.rs` (lines 95-111), acting
on an explicit store: for each route, `LoadBalancer::try_from_iter(...)?`
propagates a resolution failure out of `main` (aborting startup), and on
success the pool is installed via `router_store.add_route(route.host,
upstreams)` (no matcher is attached on this path). -/
def mainBootstrap (routes : List ConfigRoute) (store : RouteStore) :
    Except Unit RouteStore :=
  match routes with
  | [] => Except.ok store
  | route :: rest =>
      match tryFromIter (routeBackends route) with
      | none => Except.error ()
      | some pool =>
          mainBootstrap rest
            (RouteStore.insert store route.host (RouteStoreContainer.new pool))

/-- Modelled from the spec: the ACME Automation Service
(`services::letsencrypt::http01`, referenced from `src/main.rs`) is not
under src/.  Per §4.4 step 5, on a valid order the workflow finalizes,
writes the certificate into the Certificate Store for the host, and
removes the pending entry from the Order Tracker. -/
def acme_finalize_success (s : Storage) (identifier host certificate : String) :
    Storage :=
  { orders := mapErase s.orders identifier,
    certificates := mapInsert s.certificates host certificate }

/-- Modelled from the spec: per §4.4 step 6, on an invalid/expired order or
any network failure the workflow removes the pending entry, emits a
diagnostic, and leaves the Certificate Store unchanged. -/
def acme_abandon (s : Storage) (identifier : String) : Storage :=
  { s with orders := mapErase s.orders identifier }

/-- Every operation the system performs on `Storage`: the two mutators of
`src/main.rs` plus the two workflow completions modelled from spec §4.4. -/
inductive StorageOp where
  | addOrder (identifier token url : String) (key_auth : KeyAuthorization)
  | addCertificate (host certificate : String)
  | finalizeSuccess (identifier host certificate : String)
  | abandon (identifier : String)
deriving DecidableEq, Repr

/-- Apply one `StorageOp`. -/
def applyStorageOp (s : Storage) : StorageOp → Storage
  | StorageOp.addOrder identifier token url key_auth =>
      s.add_order identifier token url key_auth
  | StorageOp.addCertificate host certificate =>
      s.add_certificate host certificate
  | StorageOp.finalizeSuccess identifier host certificate =>
      acme_finalize_success s identifier host certificate
  | StorageOp.abandon identifier =>
      acme_abandon s identifier

/-- Run a sequence of storage operations from the freshly constructed
`Storage::new`. -/
def runStorageOps (ops : List StorageOp) : Storage :=
  ops.foldl applyStorageOp Storage.new

/-- Every operation the system performs on the route store: a discovery
event handled by `watch_for_route_changes`, or a configured route handled
by `add_routes_from_config` — both funnel into `add_route_to_router`. -/
inductive RouteEvent where
  | discovery (route : NewRoute)
  | fromConfig (route : ConfigRoute)
deriving DecidableEq, Repr

/-- Apply one route event to the route store. -/
def applyRouteEvent (store : RouteStore) : RouteEvent → RouteStore
  | RouteEvent.discovery route => watch_step store route
  | RouteEvent.fromConfig route =>
      add_route_to_router store route.host (routeBackends route) route.match_with

theorem build_container_upstreams (pool : List SocketAddr) (mw : Option RouteMatcher) :
    (build_container pool mw).upstreams = pool := by
  rcases mw with _ | ⟨_ | pm⟩
  · rfl
  · rfl
  · by_cases h : pm.patterns.length > 0 <;>
      simp [build_container, h, RouteStoreContainer.with_pattern, RouteStoreContainer.new]

theorem add_route_to_router_fail (store : RouteStore) (host : String)
    (ups : List String) (mw : Option RouteMatcher) (h : tryFromIter ups = none) :
    add_route_to_router store host ups mw = store := by
  simp [add_route_to_router, h]

theorem add_route_to_router_ok (store : RouteStore) (host : String)
    (ups : List String) (mw : Option RouteMatcher) (pool : List SocketAddr)
    (h : tryFromIter ups = some pool) :
    add_route_to_router store host ups mw
      = RouteStore.insert store host (build_container pool mw) := by
  simp [add_route_to_router, h]

theorem mapGet_foldl_insert_not_mem {V : Type} (inserts : List (String × V))
    (start : List (String × V)) (h : String) (hmem : h ∉ inserts.map Prod.fst) :
    mapGet (inserts.foldl (fun m p => mapInsert m p.1 p.2) start) h = mapGet start h := by
  induction inserts generalizing start with
  | nil => rfl
  | cons p rest ih =>
      simp only [List.map_cons, List.mem_cons, not_or] at hmem
      rw [List.foldl_cons, ih _ hmem.2,
        mapGet_insert_ne start p.1 h p.2 (fun e => hmem.1 e.symm)]

/-- C8: a freshly constructed `Storage` (via `Storage::new`, which `Default`
delegates to) has no certificate for any host, no pending order for any
identifier, and an empty orders map. -/
theorem storage_new_empty :
    (∀ h : String, Storage.new.get_certificate h = none)
    ∧ (∀ id : String, Storage.new.get_order id = none)
    ∧ Storage.new.get_orders = []
    ∧ Storage.default = Storage.new :=
  ⟨fun _ => rfl, fun _ => rfl, rfl, rfl⟩

/-- C2: inserting a certificate record for a host and then looking that host
up returns exactly the inserted record; an insert for a different host
leaves the lookup unchanged (the record persists until overwritten); a host
never inserted reads back as nothing; and the same round trip holds for
`Storage::add_certificate` / `Storage::get_certificate`. -/
theorem certStore_insert_get_roundtrip :
    (∀ (m : CertificateStore) (h : String) (c : Certificate),
        CertificateStore.get (CertificateStore.insert m h c) h = some c)
    ∧ (∀ (m : CertificateStore) (h h' : String) (c : Certificate), h' ≠ h →
        CertificateStore.get (CertificateStore.insert m h' c) h = CertificateStore.get m h)
    ∧ (∀ (inserts : List (String × Certificate)) (h : String),
        h ∉ inserts.map Prod.fst →
        CertificateStore.get
          (inserts.foldl (fun m p => CertificateStore.insert m p.1 p.2)
            CertificateStore.empty) h = none)
    ∧ (∀ (s : Storage) (host certificate : String),
        Storage.get_certificate (Storage.add_certificate s host certificate) host
          = some certificate) := by
  refine ⟨?_, ?_, ?_, ?_⟩
  · intro m h c
    exact mapGet_insert_self m h c
  · intro m h h' c hne
    exact mapGet_insert_ne m h' h c hne
  · intro inserts h hmem
    exact mapGet_foldl_insert_not_mem inserts CertificateStore.empty h hmem
  · intro s host certificate
    exact mapGet_insert_self s.certificates host certificate

/-- Witness for C2 at concrete inputs: a record round-trips for
`"example.com"`, an insert for `"other.com"` does not disturb it, and a
never-inserted host reads back as nothing. -/
theorem certStore_insert_get_roundtrip_witness :
    CertificateStore.get
      (CertificateStore.insert CertificateStore.empty "example.com" ⟨[1, 2], [3, 4]⟩)
      "example.com" = some ⟨[1, 2], [3, 4]⟩
    ∧ CertificateStore.get
        (CertificateStore.insert CertificateStore.empty "other.com" ⟨[9], [9]⟩)
        "example.com" = CertificateStore.get CertificateStore.empty "example.com"
    ∧ CertificateStore.get
        ([("example.com", ⟨[1], [2]⟩)].foldl
          (fun m p => CertificateStore.insert m p.1 p.2) CertificateStore.empty)
        "other.com" = none :=
  ⟨certStore_insert_get_roundtrip.1 CertificateStore.empty "example.com" ⟨[1, 2], [3, 4]⟩,
   certStore_insert_get_roundtrip.2.1 CertificateStore.empty "example.com" "other.com"
     ⟨[9], [9]⟩ (by decide),
   certStore_insert_get_roundtrip.2.2.1 [("example.com", ⟨[1], [2]⟩)] "other.com"
     (by decide)⟩

/-- C1: installing an entry for a host and then a second entry for the same
host leaves the lookup returning exactly the container built from the
second event: the previous entry is discarded whole, its pool is the pool
resolved from the second event's addresses alone, and every upstream of the
result comes from the second event; the same last-writer-wins replacement
holds for `Storage::add_certificate`. -/
theorem routeStore_last_writer_wins
    (store : RouteStore) (h : String) (ups1 ups2 : List String)
    (mw1 mw2 : Option RouteMatcher) (p1 p2 : List SocketAddr)
    (h1 : tryFromIter ups1 = some p1) (h2 : tryFromIter ups2 = some p2) :
    RouteStore.get
        (add_route_to_router (add_route_to_router store h ups1 mw1) h ups2 mw2) h
      = some (build_container p2 mw2)
    ∧ (build_container p2 mw2).upstreams = p2
    ∧ (∀ a, a ∈ (build_container p2 mw2).upstreams → a ∈ p2)
    ∧ (∀ (s : Storage) (host c1 c2 : String),
        Storage.get_certificate
          (Storage.add_certificate (Storage.add_certificate s host c1) host c2) host
          = some c2) := by
  refine ⟨?_, build_container_upstreams p2 mw2, ?_, ?_⟩
  · rw [add_route_to_router_ok store h ups1 mw1 p1 h1,
      add_route_to_router_ok _ h ups2 mw2 p2 h2]
    exact mapGet_insert_self _ h _
  · intro a ha
    rw [build_container_upstreams p2 mw2] at ha
    exact ha
  · intro s host c1 c2
    exact mapGet_insert_self _ host c2

/-- Witness for C1: two discovery events for `"example.com"` with distinct
pools; the store ends at the second pool and the first pool's address is
gone. -/
theorem routeStore_last_writer_wins_witness :
    RouteStore.get
        (add_route_to_router
          (add_route_to_router RouteStore.new "example.com" ["1.1.1.1:80"] none)
          "example.com" ["2.2.2.2:9090"] none) "example.com"
      = some (build_container [⟨"2.2.2.2", 9090⟩] none)
    ∧ (build_container [⟨"2.2.2.2", 9090⟩] none).upstreams = [⟨"2.2.2.2", 9090⟩]
    ∧ (∀ a, a ∈ (build_container [⟨"2.2.2.2", 9090⟩] none).upstreams
        → a ∈ [(⟨"2.2.2.2", 9090⟩ : SocketAddr)])
    ∧ (∀ (s : Storage) (host c1 c2 : String),
        Storage.get_certificate
          (Storage.add_certificate (Storage.add_certificate s host c1) host c2) host
          = some c2) :=
  routeStore_last_writer_wins RouteStore.new "example.com" ["1.1.1.1:80"]
    ["2.2.2.2:9090"] none none [⟨"1.1.1.1", 80⟩] [⟨"2.2.2.2", 9090⟩]
    (by decide) (by decide)

/-- C3 counterexample: a configuration with a first route whose upstream
address is malformed (empty ip, formatting to `":80"`) followed by a
well-formed route.  The bootstrap loop of `main()` propagates the
`LoadBalancer::try_from_iter` error with `?`, so startup aborts and the
remaining route is never processed — refuting the claim that a
misconfigured route is skipped and never aborts startup. -/
theorem mainBootstrap_abort_counterexample :
    mainBootstrap
      [⟨"a.com", [⟨"", 80⟩], none⟩, ⟨"b.com", [⟨"10.0.0.1", 80⟩], none⟩]
      RouteStore.new = Except.error () := rfl

/-- C3 amended: a route with unresolvable upstream addresses is skipped,
and processing continues with the remaining routes, on the
`RoutingService::add_routes_from_config` path; on the inline bootstrap loop
of `main()`, the same route aborts startup by propagating the error. -/
theorem route_skip_amended (store : RouteStore) (route : ConfigRoute)
    (rest : List ConfigRoute) (hbad : tryFromIter (routeBackends route) = none) :
    add_routes_from_config store (route :: rest) = add_routes_from_config store rest
    ∧ mainBootstrap (route :: rest) store = Except.error () := by
  constructor
  · simp only [add_routes_from_config, List.foldl_cons,
      add_route_to_router_fail store route.host (routeBackends route) route.match_with hbad]
  · simp [mainBootstrap, hbad]

/-- Witness for the amended C3: the malformed route `"a.com"` with upstream
`":80"` is skipped by `add_routes_from_config` and aborts `mainBootstrap`. -/
theorem route_skip_amended_witness :
    add_routes_from_config RouteStore.new
        [⟨"a.com", [⟨"", 80⟩], none⟩, ⟨"b.com", [⟨"10.0.0.1", 80⟩], none⟩]
      = add_routes_from_config RouteStore.new [⟨"b.com", [⟨"10.0.0.1", 80⟩], none⟩]
    ∧ mainBootstrap
        [⟨"a.com", [⟨"", 80⟩], none⟩, ⟨"b.com", [⟨"10.0.0.1", 80⟩], none⟩]
        RouteStore.new = Except.error () :=
  route_skip_amended RouteStore.new ⟨"a.com", [⟨"", 80⟩], none⟩
    [⟨"b.com", [⟨"10.0.0.1", 80⟩], none⟩] (by decide)

/-- C4: a discovery event whose upstream addresses fail to resolve is
dropped by `watch_for_route_changes` / `add_route_to_router`: the whole
route store is returned unchanged (the early `return` path), so in
particular the entry for the event's host is untouched and no partial
installation occurs. -/
theorem discovery_event_dropped (store : RouteStore) (route : NewRoute)
    (hbad : tryFromIter route.upstreams = none) :
    watch_step store route = store
    ∧ RouteStore.get (watch_step store route) route.host
        = RouteStore.get store route.host := by
  have h := add_route_to_router_fail store route.host route.upstreams none hbad
  exact ⟨h, by rw [watch_step, h]⟩

/-- Witness for C4: the event `{host := "example.com", upstreams :=
["not-an-addr"]}` leaves the store unchanged. -/
theorem discovery_event_dropped_witness :
    watch_step RouteStore.new ⟨"example.com", ["not-an-addr"]⟩ = RouteStore.new
    ∧ RouteStore.get (watch_step RouteStore.new ⟨"example.com", ["not-an-addr"]⟩)
        "example.com"
      = RouteStore.get RouteStore.new "example.com" :=
  discovery_event_dropped RouteStore.new ⟨"example.com", ["not-an-addr"]⟩ (by decide)

/-- C5: for an ACME workflow on a pending order (registered via
`Storage::add_order`): after a successful finalization the pending entry
for the identifier is absent and the certificate store holds the issued
certificate for the host; after abandonment the pending entry is likewise
absent and the certificate map is unchanged.  The identifier is therefore
pending only between order creation and finalization or abandonment. -/
theorem acme_workflow_pending_invariant (s : Storage) (id tok url : String)
    (ka : KeyAuthorization) (host cert : String) :
    Storage.get_order
        (acme_finalize_success (Storage.add_order s id tok url ka) id host cert) id
      = none
    ∧ Storage.get_certificate
        (acme_finalize_success (Storage.add_order s id tok url ka) id host cert) host
      = some cert
    ∧ Storage.get_order (acme_abandon (Storage.add_order s id tok url ka) id) id = none
    ∧ (acme_abandon (Storage.add_order s id tok url ka) id).certificates
        = (Storage.add_order s id tok url ka).certificates := by
  refine ⟨?_, ?_, ?_, rfl⟩
  · exact mapGet_erase_self _ id
  · exact mapGet_insert_self _ host cert
  · exact mapGet_erase_self _ id

theorem add_route_to_router_preserves (store : RouteStore) (host : String)
    (ups : List String) (mw : Option RouteMatcher) (h : String)
    (e : RouteStoreContainer) (hget : RouteStore.get store h = some e) :
    ∃ e', RouteStore.get (add_route_to_router store host ups mw) h = some e' := by
  cases htry : tryFromIter ups with
  | none =>
      rw [add_route_to_router_fail store host ups mw htry]
      exact ⟨e, hget⟩
  | some pool =>
      rw [add_route_to_router_ok store host ups mw pool htry]
      exact mapGet_insert_isSome store host h (build_container pool mw) e hget

theorem applyRouteEvent_preserves (store : RouteStore) (ev : RouteEvent)
    (h : String) (e : RouteStoreContainer) (hget : RouteStore.get store h = some e) :
    ∃ e', RouteStore.get (applyRouteEvent store ev) h = some e' := by
  cases ev with
  | discovery route =>
      exact add_route_to_router_preserves store route.host route.upstreams none h e hget
  | fromConfig route =>
      exact add_route_to_router_preserves store route.host (routeBackends route)
        route.match_with h e hget

/-- C6: once a host has an entry in the route store, it stays resolvable
under every sequence of further route events (discovery events and
configured routes): each event either leaves the store untouched or
overwrites some host's entry via insert, and no operation removes one. -/
theorem route_persistence (store : RouteStore) (h : String)
    (e : RouteStoreContainer) (evs : List RouteEvent)
    (hget : RouteStore.get store h = some e) :
    ∃ e', RouteStore.get (evs.foldl applyRouteEvent store) h = some e' := by
  induction evs generalizing store e with
  | nil => exact ⟨e, hget⟩
  | cons ev rest ih =>
      obtain ⟨e', he'⟩ := applyRouteEvent_preserves store ev h e hget
      exact ih _ e' he'

/-- Witness for C6: `"example.com"` stays resolvable across a dropped
malformed event for it, an overwrite for it, and an event for another
host. -/
theorem route_persistence_witness :
    ∃ e', RouteStore.get
      ([RouteEvent.discovery ⟨"example.com", ["not-an-addr"]⟩,
        RouteEvent.discovery ⟨"example.com", ["2.2.2.2:9090"]⟩,
        RouteEvent.discovery ⟨"b.com", ["1.1.1.1:80"]⟩].foldl applyRouteEvent
        [("example.com", RouteStoreContainer.new [⟨"1.1.1.1", 80⟩])])
      "example.com" = some e' :=
  route_persistence [("example.com", RouteStoreContainer.new [⟨"1.1.1.1", 80⟩])]
    "example.com" (RouteStoreContainer.new [⟨"1.1.1.1", 80⟩])
    [RouteEvent.discovery ⟨"example.com", ["not-an-addr"]⟩,
     RouteEvent.discovery ⟨"example.com", ["2.2.2.2:9090"]⟩,
     RouteEvent.discovery ⟨"b.com", ["1.1.1.1:80"]⟩] (by decide)

theorem applyStorageOp_orders_count (s : Storage)
    (hs : ∀ q, countKey s.orders q ≤ 1) (op : StorageOp) (q : String) :
    countKey (applyStorageOp s op).orders q ≤ 1 := by
  cases op with
  | addOrder id t u k =>
      have h1 := countKey_insert s.orders id q (t, u, k)
      have h2 := hs q
      dsimp [applyStorageOp, Storage.add_order]
      omega
  | addCertificate h c => exact hs q
  | finalizeSuccess id h c =>
      exact le_trans (countKey_erase_le s.orders id q) (hs q)
  | abandon id =>
      exact le_trans (countKey_erase_le s.orders id q) (hs q)

theorem foldl_storageOps_orders_count (ops : List StorageOp) (s : Storage)
    (hs : ∀ q, countKey s.orders q ≤ 1) (q : String) :
    countKey ((ops.foldl applyStorageOp s)).orders q ≤ 1 := by
  induction ops generalizing s with
  | nil => exact hs q
  | cons op rest ih =>
      exact ih (applyStorageOp s op) (applyStorageOp_orders_count s hs op)

/-- C9: `Storage::add_order` for an identifier already pending replaces the
stored `(token, validation_url, key_authorization)` tuple with the new
one, and after every sequence of storage operations starting from
`Storage::new` the orders map holds at most one entry per identifier. -/
theorem add_order_replaces_and_unique :
    (∀ (s : Storage) (id t u : String) (k : KeyAuthorization) (t' u' : String)
        (k' : KeyAuthorization),
        Storage.get_order
          (Storage.add_order (Storage.add_order s id t u k) id t' u' k') id
          = some (t', u', k'))
    ∧ (∀ (ops : List StorageOp) (q : String),
        countKey (runStorageOps ops).orders q ≤ 1) := by
  constructor
  · intro s id t u k t' u' k'
    exact mapGet_insert_self _ id (t', u', k')
  · intro ops q
    exact foldl_storageOps_orders_count ops Storage.new (fun _ => Nat.zero_le 1) q

/-- C10: `add_route_to_router` attaches the path pattern to the installed
entry exactly when the event's match rule holds a path matcher with a
non-empty pattern list; with an absent rule, an absent path matcher, or an
empty pattern list, the entry is installed with no pattern — and the insert
succeeds in every case. -/
theorem path_matcher_attachment (store : RouteStore) (host : String)
    (ups : List String) (pool : List SocketAddr) (pm : PathMatcher)
    (hok : tryFromIter ups = some pool) :
    (pm.patterns ≠ [] →
        RouteStore.get (add_route_to_router store host ups (some ⟨some pm⟩)) host
          = some ⟨pool, pm.patterns⟩)
    ∧ (pm.patterns = [] →
        RouteStore.get (add_route_to_router store host ups (some ⟨some pm⟩)) host
          = some ⟨pool, []⟩)
    ∧ RouteStore.get (add_route_to_router store host ups (some ⟨none⟩)) host
        = some ⟨pool, []⟩
    ∧ RouteStore.get (add_route_to_router store host ups none) host
        = some ⟨pool, []⟩ := by
  refine ⟨?_, ?_, ?_, ?_⟩
  · intro hne
    rw [add_route_to_router_ok store host ups (some ⟨some pm⟩) pool hok]
    have hlen : pm.patterns.length > 0 := List.length_pos.mpr hne
    have : build_container pool (some ⟨some pm⟩) = ⟨pool, pm.patterns⟩ := by
      simp [build_container, hlen, RouteStoreContainer.new, RouteStoreContainer.with_pattern]
    rw [this]
    exact mapGet_insert_self store host _
  · intro hnil
    rw [add_route_to_router_ok store host ups (some ⟨some pm⟩) pool hok]
    have : build_container pool (some ⟨some pm⟩) = ⟨pool, []⟩ := by
      simp [build_container, hnil, RouteStoreContainer.new]
    rw [this]
    exact mapGet_insert_self store host _
  · rw [add_route_to_router_ok store host ups (some ⟨none⟩) pool hok]
    exact mapGet_insert_self store host _
  · rw [add_route_to_router_ok store host ups none pool hok]
    exact mapGet_insert_self store host _

/-- Witness for C10: with pool `["1.1.1.1:80"]`, the pattern list
`["/api*"]` is attached, and the no-matcher event installs an entry with no
pattern. -/
theorem path_matcher_attachment_witness :
    RouteStore.get
        (add_route_to_router RouteStore.new "example.com" ["1.1.1.1:80"]
          (some ⟨some ⟨["/api*"]⟩⟩)) "example.com"
      = some ⟨[⟨"1.1.1.1", 80⟩], ["/api*"]⟩
    ∧ RouteStore.get
        (add_route_to_router RouteStore.new "example.com" ["1.1.1.1:80"] none)
        "example.com"
      = some ⟨[⟨"1.1.1.1", 80⟩], []⟩ :=
  ⟨(path_matcher_attachment RouteStore.new "example.com" ["1.1.1.1:80"]
      [⟨"1.1.1.1", 80⟩] ⟨["/api*"]⟩ (by decide)).1 (by decide),
   (path_matcher_attachment RouteStore.new "example.com" ["1.1.1.1:80"]
      [⟨"1.1.1.1", 80⟩] ⟨["/api*"]⟩ (by decide)).2.2.2⟩

end Proksi
